import Mathlib

/-!
Shallow embedding of the semantic retrieval engine in `rag_engine.py`
(class `RAGEngine` and the module-level convenience functions), together
with spec-side reference definitions used for refinement claims.

Modelling conventions:
* Python `None`-able arguments become `Option _`; Python string/number
  truthiness (`x or default`, `if xs:`) is modelled explicitly.
* Monetary amounts, prices and distances are `ℚ` (an idealisation of
  Python floats; the claims under study concern string structure,
  ordering and rounding at 2/3 decimal places, not binary-float error).
* Fallible steps (the sentence-transformer `encode` call, the ChromaDB
  query) return `Except Unit _`; a Python `raise` caught by a
  surrounding `try/except` is an `Except.error`.
* ChromaDB is an external library; its collection is modelled as a list
  of records in insertion order.  `Collection.add` with an id that is
  already present does not replace the stored record: the insert is
  ignored (ChromaDB logs "Insert of existing embedding ID" and keeps
  the existing record; `upsert` is a separate API that the code does
  not call).  `Collection.query` returns the `n` nearest records
  sorted ascending by distance (ties by insertion order) and raises
  for a non-positive `n`.
-/

/-- Python `x or default` for an optional string: `None` and `""` are falsy. -/
def pyOrStr (o : Option String) (d : String) : String :=
  match o with
  | none => d
  | some s => if s = "" then d else s

/-- Python `str.strip()`: remove leading and trailing whitespace. -/
def pyStrip (s : String) : String :=
  ⟨((s.data.dropWhile Char.isWhitespace).reverse.dropWhile Char.isWhitespace).reverse⟩

/-- Round to the nearest integer, halves to even (Python `round` / `%.2f`). -/
def rndHalfEven (q : ℚ) : ℤ :=
  if q - (⌊q⌋ : ℚ) < 1/2 then ⌊q⌋
  else if 1/2 < q - (⌊q⌋ : ℚ) then ⌊q⌋ + 1
  else if ⌊q⌋ % 2 = 0 then ⌊q⌋ else ⌊q⌋ + 1

/-- Two-digit zero-padded rendering of a natural number below 100. -/
def natPad2 (n : Nat) : String :=
  if n < 10 then "0" ++ toString n else toString n

/-- Python `f"{q:.2f}"` on an (idealised) float. -/
def fmt2 (q : ℚ) : String :=
  let n := rndHalfEven (q * 100)
  let sgn := if n < 0 then "-" else ""
  let m := n.natAbs
  sgn ++ toString (m / 100) ++ "." ++ natPad2 (m % 100)

/-- Python `round(q, 3)` on an (idealised) float. -/
def round3 (q : ℚ) : ℚ :=
  (rndHalfEven (q * 1000) : ℚ) / 1000

/-- Python `round(q, 2)` on an (idealised) float. -/
def round2 (q : ℚ) : ℚ :=
  (rndHalfEven (q * 100) : ℚ) / 100

/-- Fuel-indexed helper for `pyDedup` (structural recursion so that the
kernel can evaluate it; the fuel is always at least the list length). -/
def pyDedupF {α : Type} [DecidableEq α] : Nat → List α → List α
  | _, [] => []
  | 0, _ :: _ => []
  | fuel+1, x :: xs => x :: pyDedupF fuel (xs.filter (fun y => y ≠ x))

/-- Distinct values of a list in order of first occurrence: the contents of
Python `set(l)` in one particular order.  Used for `len(set(...))`, where
only the cardinality matters, and as one concrete admissible set-iteration
order in witnesses; it does NOT model CPython's hash-randomized iteration
order, which `setOrder` parameters stand for where the order matters. -/
def pyDedup {α : Type} [DecidableEq α] (l : List α) : List α :=
  pyDedupF l.length l

/-- Python `max(l, key)` — the first element attaining the maximal key
(`max` replaces its candidate only on a strictly greater key);
`none` on the empty list (where Python raises). -/
def pyMaxBy {α : Type} (key : α → Nat) : List α → Option α
  | [] => none
  | x :: xs => some (xs.foldl (fun b a => if key b < key a then a else b) x)

/-- Python list slice `l[:k]` for an arbitrary integer `k`. -/
def pySliceTo {α : Type} (k : ℤ) (l : List α) : List α :=
  if 0 ≤ k then l.take k.toNat
  else l.take (l.length - (-k).toNat)

/-- One purchased item as consumed by the engine: a dict with an optional
`name` and a `price` read via `item.get('price', 0)`. -/
structure Item where
  name : Option String
  price : Option ℚ
deriving DecidableEq, Repr

/-- Metadata stored with each vector record (`rag_engine.py` lines 132-139). -/
structure Metadata where
  transaction_id : ℤ
  vendor : String
  category : String
  date : String
  amount : ℚ
  item_count : Nat
deriving DecidableEq, Repr

/-- One record of the ChromaDB collection: id, embedding, document, metadata. -/
structure VectorRecord (E : Type) where
  id : String
  embedding : E
  document : String
  metadata : Metadata
deriving DecidableEq, Repr

/-- The engine: the embedding model (which may fail, modelling a gateway
error), the collection's distance metric (cosine distance as a black box),
and the ChromaDB collection in insertion order. -/
structure RAGEngine (E : Type) where
  embed : String → Except Unit E
  dist : E → E → ℚ
  coll : List (VectorRecord E)

/-- One formatted search result (`rag_engine.py` lines 192-201). -/
structure SimilarTx where
  transaction_id : ℤ
  vendor : String
  category : String
  date : String
  amount : ℚ
  item_count : Nat
  description : String
  similarity_score : ℚ
deriving DecidableEq, Repr

/-- A row of the relational store as read by
`retrieve_context_for_transaction` via `database.get_transaction`:
every column is present, values may be NULL (`none`). -/
structure DbTransaction where
  id : ℤ
  vendor : Option String
  category : Option String
  date : Option String
  amount : Option ℚ
  items_json : List Item
deriving DecidableEq, Repr

/-- The context object built by `retrieve_context_for_transaction`
(lines 247-258): the current transaction's fields, the filtered
neighbor list, and the generated summary. -/
structure TransactionContext where
  current_id : ℤ
  current_vendor : Option String
  current_category : Option String
  current_date : Option String
  current_amount : Option ℚ
  current_items : List Item
  similar_transactions : List SimilarTx
  context_summary : String
deriving DecidableEq, Repr

/-- The dict returned by `get_collection_stats`: the full shape when the
collection is non-empty and metadata came back, the basic shape otherwise. -/
inductive StatsResult where
  | full (total_transactions : Nat) (unique_categories : Nat)
      (unique_vendors : Nat) (avg_amount : ℚ)
      (collection_name : String) (embedding_model : String)
  | basic (total_transactions : Nat)
      (collection_name : String) (embedding_model : String)
deriving DecidableEq, Repr

/-- ChromaDB `Collection.add` of a single record: an id already present in
the collection is NOT replaced — the insert is ignored (the library logs
"Insert of existing embedding ID" and keeps the existing record). -/
def chromaAdd {E : Type} (coll : List (VectorRecord E)) (r : VectorRecord E) :
    List (VectorRecord E) :=
  if coll.any (fun s => s.id = r.id) then coll else coll ++ [r]

/-- Stable insertion of a (record, distance) pair into a list ascending by
distance: the new pair goes after all pairs of smaller-or-equal distance. -/
def insertByDist {α : Type} (x : α × ℚ) : List (α × ℚ) → List (α × ℚ)
  | [] => [x]
  | y :: ys => if y.2 ≤ x.2 then y :: insertByDist x ys else x :: y :: ys

/-- Stable sort of (record, distance) pairs ascending by distance: ties keep
the original (insertion) order. -/
def sortByDist {α : Type} : List (α × ℚ) → List (α × ℚ)
  | [] => []
  | x :: xs => insertByDist x (sortByDist xs)

/-- ChromaDB `Collection.query`: the `n` nearest records to the query,
sorted ascending by distance (ties by insertion order); raises when `n`
is not positive. -/
def chromaQuery {E : Type} (distTo : E → ℚ) (n : ℤ)
    (coll : List (VectorRecord E)) : Except Unit (List (VectorRecord E × ℚ)) :=
  if n ≤ 0 then Except.error ()
  else Except.ok ((sortByDist (coll.map (fun r => (r, distTo r.embedding)))).take n.toNat)

/-- `RAGEngine._create_transaction_text` (lines 63-106).  An absent amount
makes the f-string `${amount:.2f}` raise; the `except` fallback on line 106
formats the same amount and raises again, so the call fails. -/
def createTransactionText (vendor category : Option String) (items : List Item)
    (date : Option String) (amount : Option ℚ) : Except Unit String :=
  match amount with
  | none => Except.error ()
  | some a =>
    let itemNames := items.filterMap
      (fun it => it.name.map (fun n => n ++ " ($" ++ fmt2 (it.price.getD 0) ++ ")"))
    let itemsText :=
      if itemNames = [] then ""
      else "Items: " ++ String.intercalate ", " (itemNames.take 10) ++
        (if 10 < items.length then
          " and " ++ toString (items.length - 10) ++ " more items" else "")
    let baseText := "Transaction at " ++ pyOrStr vendor "unknown store" ++ " on " ++
      pyOrStr date "unknown date" ++ " for " ++ pyOrStr category "general" ++
      " spending $" ++ fmt2 a
    Except.ok (if itemsText = "" then baseText else baseText ++ ". " ++ itemsText)

/-- `RAGEngine.add_transaction_to_vector_db` (lines 108-154): build the
description, embed it, then `Collection.add`.  Any failure is caught and
reported as `false` with the engine unchanged. -/
def addTransactionToVectorDb {E : Type} (e : RAGEngine E) (tid : ℤ)
    (vendor category : Option String) (items : List Item)
    (date : Option String) (amount : Option ℚ) : Bool × RAGEngine E :=
  match createTransactionText vendor category items date amount with
  | Except.error _ => (false, e)
  | Except.ok text =>
    match e.embed text with
    | Except.error _ => (false, e)
    | Except.ok v =>
      let md : Metadata :=
        { transaction_id := tid
          vendor := pyOrStr vendor "unknown"
          category := pyOrStr category "other"
          date := pyOrStr date "unknown"
          amount := amount.getD 0
          item_count := items.length }
      let r : VectorRecord E :=
        { id := "transaction_" ++ toString tid
          embedding := v
          document := text
          metadata := md }
      (true, { e with coll := chromaAdd e.coll r })

/-- One result dict of `get_similar_transactions` (lines 192-201). -/
def mkSimilarTx {E : Type} (r : VectorRecord E) (d : ℚ) : SimilarTx :=
  { transaction_id := r.metadata.transaction_id
    vendor := r.metadata.vendor
    category := r.metadata.category
    date := r.metadata.date
    amount := r.metadata.amount
    item_count := r.metadata.item_count
    description := r.document
    similarity_score := round3 (1 - d) }

/-- `RAGEngine.get_similar_transactions` (lines 156-208).  The second
component counts how many times the embedding model was invoked. -/
def getSimilarTransactions {E : Type} (e : RAGEngine E) (query : String)
    (k : ℤ) : List SimilarTx × Nat :=
  if pyStrip query = "" then ([], 0)
  else
    match e.embed query with
    | Except.error _ => ([], 1)
    | Except.ok qv =>
      match chromaQuery (e.dist qv) (min k 100) e.coll with
      | Except.error _ => ([], 1)
      | Except.ok rs => (rs.map (fun p => mkSimilarTx p.1 p.2), 1)

/-- `RAGEngine._generate_context_summary` (lines 267-304).  `t['vendor']`,
`t['category']` and `t['amount']` are filtered by Python truthiness, so the
empty string and the amount `0` are excluded.  `max(set(vendors),
key=vendors.count)` (guarded by `if vendors:`) iterates the set in
CPython's hash-randomized order: `setOrder` stands for that iteration
sequence — an arbitrary enumeration with the members of its argument —
and `pyMaxBy` keeps the first element of the iteration attaining the
maximal count, so which of several count-tied vendors/categories is
emitted depends on `setOrder`. -/
def generateContextSummary (setOrder : List String → List String)
    (sims : List SimilarTx) : String :=
  if sims = [] then "No similar transactions found."
  else
    let vendors := (sims.map (fun t => t.vendor)).filter (fun s => s ≠ "")
    let categories := (sims.map (fun t => t.category)).filter (fun s => s ≠ "")
    let amounts := (sims.map (fun t => t.amount)).filter (fun a => a ≠ 0)
    let vendorPart : List String :=
      if vendors = [] then []
      else
        match pyMaxBy (fun v => vendors.count v) (setOrder vendors) with
        | none => []
        | some mcv =>
          if 1 < vendors.count mcv then
            ["You frequently shop at " ++ mcv ++ " (" ++
              toString (vendors.count mcv) ++ " times)"]
          else []
    let categoryPart : List String :=
      if categories = [] then []
      else
        match pyMaxBy (fun v => categories.count v) (setOrder categories) with
        | none => []
        | some mcc => ["Most similar transactions are in " ++ mcc]
    let amountPart : List String :=
      if amounts = [] then []
      else ["Average amount for similar transactions: $" ++
        fmt2 (amounts.sum / (amounts.length : ℚ))]
    let parts := vendorPart ++ categoryPart ++ amountPart
    if parts = [] then "Similar transaction patterns found."
    else String.intercalate ". " parts

/-- `RAGEngine.retrieve_context_for_transaction` (lines 210-265): look the
transaction up, rebuild its canonical text, query `k+1` neighbors, filter
out the transaction itself, truncate with the Python slice `[:k]`.  A
relational miss or a raise inside the `try` yields `{}` (`none`). -/
def retrieveContextForTransaction {E : Type}
    (setOrder : List String → List String) (db : ℤ → Option DbTransaction)
    (e : RAGEngine E) (tid : ℤ) (k : ℤ) : Option TransactionContext :=
  match db tid with
  | none => none
  | some tx =>
    match createTransactionText tx.vendor tx.category tx.items_json tx.date tx.amount with
    | Except.error _ => none
    | Except.ok query =>
      let sims := (getSimilarTransactions e query (k + 1)).1
      let ctx := pySliceTo k (sims.filter (fun t => t.transaction_id ≠ tid))
      some
        { current_id := tx.id
          current_vendor := tx.vendor
          current_category := tx.category
          current_date := tx.date
          current_amount := tx.amount
          current_items := tx.items_json
          similar_transactions := ctx
          context_summary := generateContextSummary setOrder ctx }

/-- `RAGEngine.get_collection_stats` (lines 306-353): count, then analyse a
sample of at most 100 records; `categories`/`vendors`/`amounts` are filtered
by truthiness and `len(set(...))` counts distinct values. -/
def getCollectionStats {E : Type} (e : RAGEngine E) : StatsResult :=
  let count := e.coll.length
  if count > 0 then
    let sample := e.coll.take (min 100 count)
    let mds := sample.map (fun r => r.metadata)
    if mds = [] then
      StatsResult.basic count "financial_transactions" "all-MiniLM-L6-v2"
    else
      let categories := (mds.map (fun m => m.category)).filter (fun s => s ≠ "")
      let vendors := (mds.map (fun m => m.vendor)).filter (fun s => s ≠ "")
      let amounts := (mds.map (fun m => m.amount)).filter (fun a => a ≠ 0)
      StatsResult.full count
        (if categories = [] then 0 else (pyDedup categories).length)
        (if vendors = [] then 0 else (pyDedup vendors).length)
        (if amounts = [] then 0 else round2 (amounts.sum / (amounts.length : ℚ)))
        "financial_transactions" "all-MiniLM-L6-v2"
  else StatsResult.basic 0 "financial_transactions" "all-MiniLM-L6-v2"

/-- Module-level `add_transaction_to_vector_db` (lines 369-391): with no
global engine it first attempts initialisation (`initOutcome` is the outcome
of `initialize_rag_engine`) and returns `false` when that fails. -/
def moduleAddTransactionToVectorDb {E : Type}
    (globalEngine initOutcome : Option (RAGEngine E)) (tid : ℤ)
    (vendor category : Option String) (items : List Item)
    (date : Option String) (amount : Option ℚ) : Bool × Option (RAGEngine E) :=
  match globalEngine with
  | some e =>
    let r := addTransactionToVectorDb e tid vendor category items date amount
    (r.1, some r.2)
  | none =>
    match initOutcome with
    | none => (false, none)
    | some e =>
      let r := addTransactionToVectorDb e tid vendor category items date amount
      (r.1, some r.2)

/-- Module-level `get_similar_transactions` (lines 393-409): with no global
engine it returns `[]` without attempting initialisation (its definition
does not consult any initialisation outcome). -/
def moduleGetSimilarTransactions {E : Type} (globalEngine : Option (RAGEngine E))
    (query : String) (k : ℤ) : List SimilarTx :=
  match globalEngine with
  | none => []
  | some e => (getSimilarTransactions e query k).1

/-- Module-level `retrieve_context_for_transaction` (lines 411-427): with no
global engine it returns `{}` without attempting initialisation. -/
def moduleRetrieveContextForTransaction {E : Type}
    (globalEngine : Option (RAGEngine E))
    (setOrder : List String → List String) (db : ℤ → Option DbTransaction)
    (tid k : ℤ) : Option TransactionContext :=
  match globalEngine with
  | none => none
  | some e => retrieveContextForTransaction setOrder db e tid k

/-- Module-level `get_collection_stats` (lines 429-441): with no global
engine it returns `{}` without attempting initialisation. -/
def moduleGetCollectionStats {E : Type}
    (globalEngine : Option (RAGEngine E)) : Option StatsResult :=
  match globalEngine with
  | none => none
  | some e => some (getCollectionStats e)

/-- A concrete embedding gateway over `ℤ` (string length), used to
instantiate the engine for concrete evaluations. -/
def embZ : String → Except Unit ℤ := fun s => Except.ok (s.length : ℤ)

/-- A concrete black-box distance over `ℤ` embeddings. -/
def distZ : ℤ → ℤ → ℚ := fun a b => |((a - b : ℤ) : ℚ)|

/-- An engine over an empty collection with the concrete gateway. -/
def engine0 : RAGEngine ℤ := { embed := embZ, dist := distZ, coll := [] }

/-- An engine whose embedding gateway always fails. -/
def engineFail : RAGEngine ℤ :=
  { embed := fun _ => Except.error (), dist := distZ, coll := [] }

/-- The engine after adding the three end-to-end scenario transactions of
spec §8 to an empty index. -/
def engineScenario : RAGEngine ℤ :=
  (addTransactionToVectorDb
    (addTransactionToVectorDb
      (addTransactionToVectorDb engine0 1 (some "Walmart") (some "groceries")
        [⟨some "Milk", some (399/100)⟩] (some "2024-01-15") (some (1561/100))).2
      2 (some "Costco") (some "groceries")
        [⟨some "Olive Oil", some (1299/100)⟩] (some "2024-01-20") (some (3452/100))).2
    3 (some "Shell") (some "transportation")
      [⟨some "Gasoline", some 45⟩] (some "2024-01-10") (some 45)).2

/-- The relational row for scenario transaction 1. -/
def txScenario : DbTransaction :=
  ⟨1, some "Walmart", some "groceries", some "2024-01-15",
    some (1561/100), [⟨some "Milk", some (399/100)⟩]⟩

/-- A relational store holding only scenario transaction 1. -/
def dbScenario : ℤ → Option DbTransaction := fun i =>
  if i = 1 then some txScenario else none

/-- The engine after a first `addTransaction(1, "Walmart", ...)` call. -/
def engineAfterFirstAdd : RAGEngine ℤ :=
  (addTransactionToVectorDb engine0 1 (some "Walmart") (some "groceries") []
    (some "2024-01-15") (some (1561/100))).2

/-- The result of re-adding transaction id 1 with different data
(`addTransaction(1, "Costco", ...)`): the reported flag and the new state. -/
def secondAddResult : Bool × RAGEngine ℤ :=
  addTransactionToVectorDb engineAfterFirstAdd 1 (some "Costco") (some "wholesale") []
    (some "2024-01-20") (some (3452/100))

/-- The context returned by the scenario `contextFor(1, 2)` call, with
first-occurrence order as the concrete set-iteration order. -/
def ctxScenario : TransactionContext :=
  (retrieveContextForTransaction pyDedup dbScenario engineScenario 1 2).getD
    ⟨0, none, none, none, none, [], [], ""⟩

/-- A one-record collection whose stored embedding has dimension 2. -/
def engDimA : RAGEngine (List ℚ) :=
  { embed := fun _ => Except.error ()
    dist := fun _ _ => 0
    coll := [{ id := "transaction_9", embedding := [0, 0], document := "d",
               metadata := ⟨9, "V", "c", "2024", 1, 0⟩ }] }

/-- A one-record collection identical to `engDimA` except that the stored
embedding has dimension 3. -/
def engDimB : RAGEngine (List ℚ) :=
  { embed := fun _ => Except.error ()
    dist := fun _ _ => 0
    coll := [{ id := "transaction_9", embedding := [0, 0, 0], document := "d",
               metadata := ⟨9, "V", "c", "2024", 1, 0⟩ }] }

/-- Reference definition following the spec's words for the modal value of a
list: the most frequent value, ties broken by the first value reaching the
maximum count in list order — i.e. the first element whose count is maximal. -/
def specModalStr (l : List String) : Option String :=
  l.find? (fun v => decide (∀ w ∈ l, l.count w ≤ l.count v))

/-- Reference definition following the claim's words for the context
summarizer (spec §4.5 as quoted in the claim): clause 3 applies whenever any
neighbor has a numeric amount — which every neighbor has — averaging all
amounts. -/
def specSummarize (ns : List SimilarTx) : String :=
  if ns = [] then "No similar transactions found."
  else
    let vendors := (ns.map (fun t => t.vendor)).filter (fun s => s ≠ "")
    let categories := (ns.map (fun t => t.category)).filter (fun s => s ≠ "")
    let vendorClause : List String :=
      match specModalStr vendors with
      | none => []
      | some m =>
        if 1 < vendors.count m then
          ["You frequently shop at " ++ m ++ " (" ++
            toString (vendors.count m) ++ " times)"]
        else []
    let categoryClause : List String :=
      match specModalStr categories with
      | none => []
      | some m => ["Most similar transactions are in " ++ m]
    let amountClause : List String :=
      ["Average amount for similar transactions: $" ++
        fmt2 ((ns.map (fun t => t.amount)).sum / (ns.length : ℚ))]
    let clauses := vendorClause ++ categoryClause ++ amountClause
    if clauses = [] then "Similar transaction patterns found."
    else String.intercalate ". " clauses

/-- Reference definition for the summarizer as amended: clause 3 applies
only when some neighbor has a nonzero amount, averaging the nonzero
amounts (matching the code's Python truthiness filter).  The vendor and
category named in clauses 1-2 are parameters `mv`/`mc`, because the code
does not determine which of several count-tied values it emits (CPython's
set iteration order is hash-randomized); the accompanying theorem asserts
they are values of maximal count. -/
def specSummarizeAmended (mv mc : String) (ns : List SimilarTx) : String :=
  if ns = [] then "No similar transactions found."
  else
    let vendors := (ns.map (fun t => t.vendor)).filter (fun s => s ≠ "")
    let categories := (ns.map (fun t => t.category)).filter (fun s => s ≠ "")
    let amounts := (ns.map (fun t => t.amount)).filter (fun a => a ≠ 0)
    let vendorClause : List String :=
      if vendors = [] then []
      else if 1 < vendors.count mv then
        ["You frequently shop at " ++ mv ++ " (" ++
          toString (vendors.count mv) ++ " times)"]
      else []
    let categoryClause : List String :=
      if categories = [] then []
      else ["Most similar transactions are in " ++ mc]
    let amountClause : List String :=
      if amounts = [] then []
      else ["Average amount for similar transactions: $" ++
        fmt2 (amounts.sum / (amounts.length : ℚ))]
    let clauses := vendorClause ++ categoryClause ++ amountClause
    if clauses = [] then "Similar transaction patterns found."
    else String.intercalate ". " clauses

/-- A neighbor list with a genuine vendor-count tie ("B" and "A" occur
twice each), used to exercise the summarizer theorem at one admissible
set-iteration order. -/
def c4SampleNeighbors : List SimilarTx :=
  [⟨1, "B", "food", "", 5, 0, "", 0⟩, ⟨2, "A", "food", "", 3, 0, "", 0⟩,
   ⟨3, "A", "fuel", "", 0, 0, "", 0⟩, ⟨4, "B", "fuel", "", 2, 0, "", 0⟩]

/-- Reference definition following the amended claim for the description
builder: an absent amount fails; otherwise the base sentence (no trailing
period) with truthiness defaults, followed — when at least one named item
exists — by ". Items: " and the first 10 named items, with an "and {n-10}
more items" tail when the total item count exceeds 10. -/
def specBuildDescription (vendor category : Option String) (items : List Item)
    (date : Option String) (amount : Option ℚ) : Except Unit String :=
  match amount with
  | none => Except.error ()
  | some a =>
    let named := items.filter (fun it => it.name.isSome)
    let rendered := (named.take 10).map
      (fun it => it.name.getD "" ++ " ($" ++ fmt2 (it.price.getD 0) ++ ")")
    let extra :=
      if 10 < items.length then
        " and " ++ toString (items.length - 10) ++ " more items"
      else ""
    let base := "Transaction at " ++ pyOrStr vendor "unknown store" ++ " on " ++
      pyOrStr date "unknown date" ++ " for " ++ pyOrStr category "general" ++
      " spending $" ++ fmt2 a
    Except.ok (if named = [] then base
      else base ++ ". " ++ ("Items: " ++ String.intercalate ", " rendered ++ extra))

theorem floor_le_rndHalfEven (q : ℚ) : ⌊q⌋ ≤ rndHalfEven q := by
  unfold rndHalfEven
  split_ifs <;> omega

theorem rndHalfEven_le_floor_add_one (q : ℚ) : rndHalfEven q ≤ ⌊q⌋ + 1 := by
  unfold rndHalfEven
  split_ifs <;> omega

theorem rndHalfEven_mono {x y : ℚ} (h : x ≤ y) : rndHalfEven x ≤ rndHalfEven y := by
  have hf : ⌊x⌋ ≤ ⌊y⌋ := Int.floor_le_floor h
  rcases lt_or_eq_of_le hf with hlt | heq
  · calc rndHalfEven x ≤ ⌊x⌋ + 1 := rndHalfEven_le_floor_add_one x
      _ ≤ ⌊y⌋ := by omega
      _ ≤ rndHalfEven y := floor_le_rndHalfEven y
  · have hc : ((⌊x⌋ : ℤ) : ℚ) = ((⌊y⌋ : ℤ) : ℚ) := by exact_mod_cast heq
    unfold rndHalfEven
    split_ifs <;> first | omega | linarith

theorem round3_mono {x y : ℚ} (h : x ≤ y) : round3 x ≤ round3 y := by
  unfold round3
  have h1 : rndHalfEven (x * 1000) ≤ rndHalfEven (y * 1000) :=
    rndHalfEven_mono (by linarith)
  have h2 : ((rndHalfEven (x * 1000) : ℤ) : ℚ) ≤ ((rndHalfEven (y * 1000) : ℤ) : ℚ) := by
    exact_mod_cast h1
  linarith

theorem mem_insertByDist {α : Type} {x a : α × ℚ} :
    ∀ {l : List (α × ℚ)}, a ∈ insertByDist x l ↔ a = x ∨ a ∈ l := by
  intro l
  induction l with
  | nil => simp [insertByDist]
  | cons y ys ih =>
    by_cases hc : y.2 ≤ x.2
    · simp only [insertByDist, if_pos hc, List.mem_cons, ih]
      tauto
    · simp only [insertByDist, if_neg hc, List.mem_cons]

theorem length_insertByDist {α : Type} (x : α × ℚ) :
    ∀ (l : List (α × ℚ)), (insertByDist x l).length = l.length + 1 := by
  intro l
  induction l with
  | nil => rfl
  | cons y ys ih =>
    by_cases hc : y.2 ≤ x.2
    · simp only [insertByDist, if_pos hc, List.length_cons, ih]
    · simp only [insertByDist, if_neg hc, List.length_cons]

theorem pairwise_insertByDist {α : Type} (x : α × ℚ) (l : List (α × ℚ))
    (h : l.Pairwise (fun a b => a.2 ≤ b.2)) :
    (insertByDist x l).Pairwise (fun a b => a.2 ≤ b.2) := by
  induction l with
  | nil => simp [insertByDist]
  | cons y ys ih =>
    rw [List.pairwise_cons] at h
    by_cases hc : y.2 ≤ x.2
    · simp only [insertByDist, if_pos hc]
      rw [List.pairwise_cons]
      refine ⟨?_, ih h.2⟩
      intro b hb
      rcases mem_insertByDist.mp hb with rfl | hb2
      · exact hc
      · exact h.1 b hb2
    · simp only [insertByDist, if_neg hc]
      rw [List.pairwise_cons]
      refine ⟨?_, List.pairwise_cons.mpr h⟩
      intro b hb
      rcases List.mem_cons.mp hb with rfl | hb2
      · exact le_of_not_le hc
      · exact le_trans (le_of_not_le hc) (h.1 b hb2)

theorem pairwise_sortByDist {α : Type} :
    ∀ (l : List (α × ℚ)), (sortByDist l).Pairwise (fun a b => a.2 ≤ b.2) := by
  intro l
  induction l with
  | nil => simp [sortByDist]
  | cons x xs ih => exact pairwise_insertByDist x _ ih

theorem mem_sortByDist {α : Type} {a : α × ℚ} :
    ∀ {l : List (α × ℚ)}, a ∈ sortByDist l ↔ a ∈ l := by
  intro l
  induction l with
  | nil => simp [sortByDist]
  | cons x xs ih =>
    simp only [sortByDist, mem_insertByDist, ih, List.mem_cons]

theorem length_sortByDist {α : Type} :
    ∀ (l : List (α × ℚ)), (sortByDist l).length = l.length := by
  intro l
  induction l with
  | nil => rfl
  | cons x xs ih =>
    simp only [sortByDist, length_insertByDist, ih, List.length_cons]

theorem pySliceTo_subset {α : Type} (k : ℤ) (l : List α) : pySliceTo k l ⊆ l := by
  unfold pySliceTo
  split_ifs <;> exact List.take_subset _ _

theorem take_min_hundred {α : Type} (l : List α) :
    l.take (min 100 l.length) = l.take 100 := by
  rw [← List.take_take, List.take_length]

theorem find?_cons_pos {α : Type} (p : α → Bool) (a : α) (l : List α)
    (h : p a = true) : (a :: l).find? p = some a := by
  simp [List.find?_cons, h]

theorem find?_cons_neg {α : Type} (p : α → Bool) (a : α) (l : List α)
    (h : p a = false) : (a :: l).find? p = l.find? p := by
  simp [List.find?_cons, h]

theorem mem_pyDedupF {α : Type} [DecidableEq α] {a : α} :
    ∀ (fuel : Nat) (l : List α), l.length ≤ fuel →
      (a ∈ pyDedupF fuel l ↔ a ∈ l) := by
  intro fuel
  induction fuel with
  | zero =>
    intro l hl
    cases l with
    | nil => exact Iff.rfl
    | cons x xs => simp [List.length_cons] at hl
  | succ fuel ih =>
    intro l hl
    cases l with
    | nil => exact Iff.rfl
    | cons x xs =>
      rw [pyDedupF]
      have hfl : (xs.filter (fun y => y ≠ x)).length ≤ fuel := by
        have h1 := List.length_filter_le (fun y => decide (y ≠ x)) xs
        simp only [List.length_cons] at hl
        omega
      simp only [List.mem_cons, ih _ hfl, List.mem_filter]
      constructor
      · rintro (rfl | ⟨h, _⟩)
        · exact Or.inl rfl
        · exact Or.inr h
      · rintro (rfl | h)
        · exact Or.inl rfl
        · by_cases hax : a = x
          · exact Or.inl hax
          · exact Or.inr ⟨h, by simp [hax]⟩

theorem mem_pyDedup {α : Type} [DecidableEq α] {a : α} (l : List α) :
    a ∈ pyDedup l ↔ a ∈ l :=
  mem_pyDedupF l.length l (le_refl _)

theorem foldl_max_eq_find? {α : Type} (key : α → Nat) :
    ∀ (m : List α) (b : α),
      some (m.foldl (fun x a => if key x < key a then a else x) b) =
        (b :: m).find? (fun v => decide (∀ w ∈ b :: m, key w ≤ key v)) := by
  intro m
  induction m with
  | nil =>
    intro b
    rw [find?_cons_pos _ b [] (decide_eq_true (by simp))]
    rfl
  | cons a t ih =>
    intro b
    rw [List.foldl_cons, ih (if key b < key a then a else b)]
    have hpred : (fun v => decide (∀ w ∈ (if key b < key a then a else b) :: t, key w ≤ key v))
        = (fun v => decide (∀ w ∈ b :: a :: t, key w ≤ key v)) := by
      funext v
      apply decide_eq_decide.mpr
      by_cases hab : key b < key a
      · simp only [if_pos hab, List.forall_mem_cons]
        constructor
        · intro hh
          exact ⟨by omega, hh.1, hh.2⟩
        · intro hh
          exact ⟨hh.2.1, hh.2.2⟩
      · simp only [if_neg hab, List.forall_mem_cons]
        constructor
        · intro hh
          exact ⟨hh.1, by omega, hh.2⟩
        · intro hh
          exact ⟨hh.1, hh.2.2⟩
    rw [hpred]
    by_cases hab : key b < key a
    · rw [if_pos hab]
      have hPb : (fun v => decide (∀ w ∈ b :: a :: t, key w ≤ key v)) b = false := by
        apply decide_eq_false
        intro hall
        exact absurd (hall a (by simp)) (by omega)
      rw [find?_cons_neg _ b (a :: t) hPb]
    · rw [if_neg hab]
      by_cases hPb : ∀ w ∈ b :: a :: t, key w ≤ key b
      · rw [find?_cons_pos _ b t (decide_eq_true (by
            intro w hw
            rcases List.mem_cons.mp hw with rfl | hw2
            · exact le_refl _
            · exact hPb w (by simp [hw2]))),
          find?_cons_pos _ b (a :: t) (decide_eq_true hPb)]
    
      · have hb : (fun v => decide (∀ w ∈ b :: a :: t, key w ≤ key v)) b = false :=
          decide_eq_false hPb
        have hPa : (fun v => decide (∀ w ∈ b :: a :: t, key w ≤ key v)) a = false := by
          apply decide_eq_false
          intro hall
          apply hPb
          intro w hw
          have h1 := hall w hw
          have h2 := hall b (by simp)
          omega
        have hb2 : (fun v => decide (∀ w ∈ b :: a :: t, key w ≤ key v)) b = false := hb
        rw [find?_cons_neg _ b t hb, find?_cons_neg _ b (a :: t) hb2,
          find?_cons_neg _ a t hPa]

theorem pyMaxBy_setOrder_isModal (setOrder : List String → List String)
    (hso : ∀ (l : List String) (a : String), a ∈ setOrder l ↔ a ∈ l)
    (l : List String) (hl : l ≠ []) :
    ∃ m, pyMaxBy (fun v => l.count v) (setOrder l) = some m ∧ m ∈ l ∧
      ∀ w ∈ l, l.count w ≤ l.count m := by
  cases hord : setOrder l with
  | nil =>
    exfalso
    cases l with
    | nil => exact hl rfl
    | cons x xs =>
      have hx : x ∈ setOrder (x :: xs) := (hso (x :: xs) x).mpr (List.mem_cons_self x xs)
      rw [hord] at hx
      exact List.not_mem_nil x hx
  | cons x xs =>
    have hfind := foldl_max_eq_find? (fun v => l.count v) xs x
    obtain ⟨m, hm⟩ : ∃ m, (x :: xs).find?
        (fun v => decide (∀ w ∈ x :: xs, l.count w ≤ l.count v)) = some m :=
      ⟨_, hfind.symm⟩
    refine ⟨m, ?_, ?_, ?_⟩
    · exact hfind.trans hm
    · have hmm := List.mem_of_find?_eq_some hm
      refine (hso l m).mp ?_
      rw [hord]
      exact hmm
    · intro w hw
      have hw2 : w ∈ x :: xs := by
        have hw3 := (hso l w).mpr hw
        rw [hord] at hw3
        exact hw3
      have hpm := List.find?_some hm
      have hpm2 : ∀ w ∈ x :: xs, l.count w ≤ l.count m := of_decide_eq_true hpm
      exact hpm2 w hw2

/-- C4 (amended): for every admissible set-iteration order (CPython
iterates `set(...)` in hash-randomized order, so the order is quantified
over all enumerations with the members of the argument) and every neighbor
list, the summarizer produces exactly the amended reference string for
some vendor `mv` and some category `mc` of maximal count among the
non-empty vendors/categories; clause 3 applies only to nonzero amounts,
averaging them.  Which count-tied value is emitted depends on the set
order — the spec's first-in-neighbor-order tie-break is not implemented by
the code and is not asserted here. -/
theorem generateContextSummary_eq_specAmended
    (setOrder : List String → List String)
    (hso : ∀ (l : List String) (a : String), a ∈ setOrder l ↔ a ∈ l)
    (ns : List SimilarTx) :
    ∃ mv mc : String,
      ((ns.map (fun t => t.vendor)).filter (fun s => s ≠ "") ≠ [] →
        mv ∈ (ns.map (fun t => t.vendor)).filter (fun s => s ≠ "") ∧
        ∀ w ∈ (ns.map (fun t => t.vendor)).filter (fun s => s ≠ ""),
          ((ns.map (fun t => t.vendor)).filter (fun s => s ≠ "")).count w ≤
            ((ns.map (fun t => t.vendor)).filter (fun s => s ≠ "")).count mv) ∧
      ((ns.map (fun t => t.category)).filter (fun s => s ≠ "") ≠ [] →
        mc ∈ (ns.map (fun t => t.category)).filter (fun s => s ≠ "") ∧
        ∀ w ∈ (ns.map (fun t => t.category)).filter (fun s => s ≠ ""),
          ((ns.map (fun t => t.category)).filter (fun s => s ≠ "")).count w ≤
            ((ns.map (fun t => t.category)).filter (fun s => s ≠ "")).count mc) ∧
      generateContextSummary setOrder ns = specSummarizeAmended mv mc ns := by
  by_cases hns : ns = []
  · subst hns
    exact ⟨"", "", fun h => absurd rfl h, fun h => absurd rfl h, rfl⟩
  · by_cases hv : (ns.map (fun t => t.vendor)).filter (fun s => s ≠ "") = []
    · by_cases hc : (ns.map (fun t => t.category)).filter (fun s => s ≠ "") = []
      · refine ⟨"", "", fun h => absurd hv h, fun h => absurd hc h, ?_⟩
        simp only [generateContextSummary, specSummarizeAmended, if_neg hns, hv, hc]
        try rfl
      · obtain ⟨mc, hmc1, hmc2, hmc3⟩ := pyMaxBy_setOrder_isModal setOrder hso _ hc
        refine ⟨"", mc, fun h => absurd hv h, fun _ => ⟨hmc2, hmc3⟩, ?_⟩
        simp only [generateContextSummary, specSummarizeAmended, if_neg hns, hv,
          if_neg hc, hmc1]
        try rfl
    · obtain ⟨mv, hmv1, hmv2, hmv3⟩ := pyMaxBy_setOrder_isModal setOrder hso _ hv
      by_cases hc : (ns.map (fun t => t.category)).filter (fun s => s ≠ "") = []
      · refine ⟨mv, "", fun _ => ⟨hmv2, hmv3⟩, fun h => absurd hc h, ?_⟩
        simp only [generateContextSummary, specSummarizeAmended, if_neg hns,
          if_neg hv, hc, hmv1]
        try rfl
      · obtain ⟨mc, hmc1, hmc2, hmc3⟩ := pyMaxBy_setOrder_isModal setOrder hso _ hc
        refine ⟨mv, mc, fun _ => ⟨hmv2, hmv3⟩, fun _ => ⟨hmc2, hmc3⟩, ?_⟩
        simp only [generateContextSummary, specSummarizeAmended, if_neg hns,
          if_neg hv, if_neg hc, hmv1, hmc1]
        try rfl

theorem itemNames_eq_filter_map (items : List Item) :
    items.filterMap
        (fun it => it.name.map (fun n => n ++ " ($" ++ fmt2 (it.price.getD 0) ++ ")"))
      = (items.filter (fun it => it.name.isSome)).map
          (fun it => it.name.getD "" ++ " ($" ++ fmt2 (it.price.getD 0) ++ ")") := by
  induction items with
  | nil => rfl
  | cons it rest ih =>
    cases hn : it.name with
    | none =>
      rw [List.filterMap_cons, List.filter_cons, hn]
      simpa using ih
    | some n =>
      rw [List.filterMap_cons, List.filter_cons, hn]
      simp only [Option.map_some', Option.isSome_some, decide_True, if_pos trivial,
        List.map_cons, Option.getD_some, hn]
      rw [ih]

/-- C2 (amended): the description builder equals the amended reference
definition: it fails when the amount is absent; otherwise it renders the
base sentence (defaults "unknown store", "unknown date", "general"; no
trailing period) and, when at least one named item exists, appends
". Items: " with the first 10 named items and an "and {n-10} more items"
tail when the total item count exceeds 10. -/
theorem createTransactionText_eq_spec (vendor category : Option String)
    (items : List Item) (date : Option String) (amount : Option ℚ) :
    createTransactionText vendor category items date amount =
      specBuildDescription vendor category items date amount := by
  cases amount with
  | none => rfl
  | some a =>
    simp only [createTransactionText, specBuildDescription,
      itemNames_eq_filter_map, List.map_eq_nil_iff, List.map_take]
    by_cases hnamed : items.filter (fun it => it.name.isSome) = []
    · simp [hnamed]
    · simp only [if_neg hnamed]
      have hne : ∀ (s t : String), ("Items: " ++ s ++ t) ≠ "" := by
        intro s t hcon
        have hlen := congrArg String.length hcon
        rw [String.length_append, String.length_append] at hlen
        have h7 : ("Items: " : String).length = 7 := rfl
        have h0 : ("" : String).length = 0 := rfl
        omega
      rw [if_neg (hne _ _)]

section ConcreteEvaluation

attribute [local semireducible] Rat.mul Rat.add Rat.sub Rat.inv Rat.ofScientific

set_option maxRecDepth 100000

/-- C1: the claim asserts that adding the same transaction id twice leaves
one record holding the data of the SECOND call.  In the code the second
`collection.add` is ignored by ChromaDB (the id already exists; `upsert` is
never called), so the single record under `transaction_1` still holds the
first call's vendor and amount while the second call reports `True`; the
count is indeed unchanged.  This theorem evaluates the model at that
failing input. -/
theorem c1_add_twice_keeps_first_data :
    secondAddResult.1 = true ∧ secondAddResult.2.coll.length = 1 ∧
      secondAddResult.2.coll.map (fun r => (r.id, r.metadata.vendor, r.metadata.amount)) =
        [("transaction_1", "Walmart", 1561/100)] := by
  decide

/-- C2 counterexample: the claim says the builder is total and substitutes
an absent amount with the default 0.0, returning the base sentence; in the
code an absent amount makes `${amount:.2f}` raise and the `except` fallback
raises again, so the builder fails instead of returning a string. -/
theorem c2_counterexample_absent_amount :
    createTransactionText none none [] none none = Except.error () := rfl

/-- C3: for a transaction id present in the relational store and k ≥ 0
(the spec's interface requires `k:int≥0`), any context returned by
`contextFor(id, k)` contains no entry whose transactionId equals id and at
most k entries. -/
theorem c3_self_exclusion {E : Type} (setOrder : List String → List String)
    (db : ℤ → Option DbTransaction)
    (e : RAGEngine E) (tid k : ℤ) (tx : DbTransaction) (ctx : TransactionContext)
    (hdb : db tid = some tx) (hk : 0 ≤ k)
    (hctx : retrieveContextForTransaction setOrder db e tid k = some ctx) :
    (∀ s ∈ ctx.similar_transactions, s.transaction_id ≠ tid) ∧
      ctx.similar_transactions.length ≤ k.toNat := by
  simp only [retrieveContextForTransaction, hdb] at hctx
  cases htxt : createTransactionText tx.vendor tx.category tx.items_json tx.date tx.amount with
  | error u =>
    rw [htxt] at hctx
    simp at hctx
  | ok q =>
    rw [htxt] at hctx
    simp only [Option.some.injEq] at hctx
    subst hctx
    constructor
    · intro s hs
      have hs1 := pySliceTo_subset k _ hs
      exact of_decide_eq_true (List.mem_filter.mp hs1).2
    · show (pySliceTo k _).length ≤ k.toNat
      rw [pySliceTo, if_pos hk]
      exact List.length_take_le _ _

/-- C3 witness: the scenario store holds transaction 1, the scenario index
holds transactions 1-3 (the query matches transaction 1 itself at distance
0), and `contextFor(1, 2)` excludes 1 and returns at most 2 neighbors. -/
theorem c3_witness :
    dbScenario 1 = some txScenario ∧ (0 : ℤ) ≤ 2 ∧
      ((∀ s ∈ ctxScenario.similar_transactions, s.transaction_id ≠ 1) ∧
        ctxScenario.similar_transactions.length ≤ (2 : ℤ).toNat) := by
  have h : retrieveContextForTransaction pyDedup dbScenario engineScenario 1 2 =
      some ctxScenario := by
    decide
  exact ⟨rfl, by decide,
    c3_self_exclusion pyDedup dbScenario engineScenario 1 2 txScenario ctxScenario
      rfl (by decide) h⟩

/-- C5 (amended): `findSimilar(q, k)` returns at most
`min(k, 100, count())` results, and returns the empty list for `k ≤ 0` —
but the embedding gateway is invoked before the `k` bound is applied
(see the counterexample theorem). -/
theorem c5_k_bounding {E : Type} (e : RAGEngine E) (q : String) (k : ℤ) :
    (getSimilarTransactions e q k).1.length ≤ min k.toNat (min 100 e.coll.length) ∧
      (k ≤ 0 → (getSimilarTransactions e q k).1 = []) := by
  simp only [getSimilarTransactions]
  by_cases hq : pyStrip q = ""
  · simp [hq]
  · rw [if_neg hq]
    cases he : e.embed q with
    | error u => simp
    | ok qv =>
      simp only [chromaQuery]
      by_cases hn : min k 100 ≤ 0
      · simp [hn]
      · rw [if_neg hn]
        constructor
        · simp only [List.length_map, List.length_take, length_sortByDist]
          omega
        · intro hk0
          exact absurd hn (by omega)

/-- C5 witness: at `k = 0` the hypothesis `k ≤ 0` is discharged and the
result list is empty. -/
theorem c5_witness :
    (0 : ℤ) ≤ 0 ∧ (getSimilarTransactions engine0 "grocery" 0).1 = [] :=
  ⟨le_refl 0, (c5_k_bounding engine0 "grocery" 0).2 (le_refl 0)⟩

/-- C5 counterexample: the claim says `findSimilar(q, 0)` issues no
embedding call, but the code embeds the query (line 173) before clamping
`k` (line 178): the invocation counter is 1, not 0, even though the result
list is empty. -/
theorem c5_counterexample_embedding_invoked :
    getSimilarTransactions engine0 "grocery" 0 = ([], 1) := by
  decide

/-- C6: a query that is blank after stripping returns `([], 0)` — the empty
list with zero embedding invocations — for every engine, in particular for
every embedding function. -/
theorem c6_blank_query {E : Type} (e : RAGEngine E) (q : String) (k : ℤ)
    (h : pyStrip q = "") :
    getSimilarTransactions e q k = ([], 0) := by
  rw [getSimilarTransactions, if_pos h]

/-- C6 witness: the spec's concrete instance `findSimilar("   ", 5)`. -/
theorem c6_witness :
    pyStrip "   " = "" ∧ getSimilarTransactions engine0 "   " 5 = ([], 0) :=
  ⟨by decide, c6_blank_query engine0 "   " 5 (by decide)⟩

/-- C7: for any query whose embedding succeeds, the similarity scores are
non-increasing across the result list, and every result's score equals
`round(1 - d, 3)` where `d` is the cosine distance of its stored record
from the query vector. -/
theorem c7_scores {E : Type} (e : RAGEngine E) (q : String) (k : ℤ) (qv : E)
    (h : e.embed q = Except.ok qv) :
    ((getSimilarTransactions e q k).1.Pairwise
        (fun a b => b.similarity_score ≤ a.similarity_score)) ∧
      (∀ s ∈ (getSimilarTransactions e q k).1, ∃ r, r ∈ e.coll ∧
        s.description = r.document ∧
        s.similarity_score = round3 (1 - e.dist qv r.embedding)) := by
  simp only [getSimilarTransactions]
  by_cases hq : pyStrip q = ""
  · simp [hq]
  · rw [if_neg hq, h]
    simp only [chromaQuery]
    by_cases hn : min k 100 ≤ 0
    · simp [hn]
    · rw [if_neg hn]
      constructor
      · rw [List.pairwise_map]
        have hp : ((sortByDist (e.coll.map (fun r => (r, e.dist qv r.embedding)))).take
            (min k 100).toNat).Pairwise (fun a b => a.2 ≤ b.2) :=
          (pairwise_sortByDist _).sublist (List.take_sublist _ _)
        exact hp.imp (fun hab => round3_mono (by linarith))
      · intro s hs
        obtain ⟨p, hp, rfl⟩ := List.mem_map.mp hs
        have hp2 : p ∈ sortByDist (e.coll.map (fun r => (r, e.dist qv r.embedding))) :=
          List.take_subset _ _ hp
        obtain ⟨r, hr, hpr⟩ := List.mem_map.mp (mem_sortByDist.mp hp2)
        refine ⟨r, hr, ?_, ?_⟩ <;> (rw [← hpr]; rfl)

/-- C7 witness: the scenario engine with the spec's query; the embedding
succeeds concretely and the score properties follow from the theorem. -/
theorem c7_witness :
    engineScenario.embed "grocery shopping" = Except.ok 16 ∧
      (((getSimilarTransactions engineScenario "grocery shopping" 2).1.Pairwise
          (fun a b => b.similarity_score ≤ a.similarity_score)) ∧
        (∀ s ∈ (getSimilarTransactions engineScenario "grocery shopping" 2).1,
          ∃ r, r ∈ engineScenario.coll ∧ s.description = r.document ∧
            s.similarity_score = round3 (1 - engineScenario.dist 16 r.embedding))) :=
  ⟨rfl, c7_scores engineScenario "grocery shopping" 2 16 rfl⟩

/-- C8 (amended): `stats()` depends only on the record count and the first
100 records (the bounded sample), and on the three-transaction scenario it
reports 3 total records, 2 unique categories, 3 unique vendors, the average
amount $31.71, the collection name and the embedding model name — there is
no dimension field (see the counterexample theorem). -/
theorem c8_stats_amended {E : Type} (e1 e2 : RAGEngine E)
    (h1 : e1.coll.length = e2.coll.length)
    (h2 : e1.coll.take 100 = e2.coll.take 100) :
    getCollectionStats e1 = getCollectionStats e2 ∧
      getCollectionStats engineScenario =
        StatsResult.full 3 2 3 (3171/100) "financial_transactions" "all-MiniLM-L6-v2" := by
  constructor
  · simp only [getCollectionStats]
    rw [take_min_hundred, take_min_hundred, h1, h2]
  · decide

/-- C8 witness: trivial sample equality plus the concrete scenario stats. -/
theorem c8_witness :
    engDimA.coll.length = engDimA.coll.length ∧
      (getCollectionStats engDimA = getCollectionStats engDimA ∧
        getCollectionStats engineScenario =
          StatsResult.full 3 2 3 (3171/100) "financial_transactions" "all-MiniLM-L6-v2") :=
  ⟨rfl, c8_stats_amended engDimA engDimA rfl rfl⟩

/-- C8 counterexample: the claim says `stats()` contains a `dimension`
field.  The code returns `collection_name` and `embedding_model` instead
and never inspects the stored vectors: two collections that differ only in
embedding dimension (2 versus 3) produce identical stats, so no component
of the result is the dimension. -/
theorem c8_counterexample_no_dimension :
    getCollectionStats engDimA = getCollectionStats engDimB ∧
      engDimA.coll.map (fun r => r.embedding.length) = [2] ∧
      engDimB.coll.map (fun r => r.embedding.length) = [3] := by
  decide

/-- C9: external-dependency failures are non-fatal and atomic: if the
embedding of the built description fails, `addTransaction` returns `false`
with the engine (and hence the index) unchanged; if the transaction id is
absent from the relational store, `contextFor` returns the empty result. -/
theorem c9_external_failures {E : Type} (setOrder : List String → List String)
    (e : RAGEngine E)
    (db : ℤ → Option DbTransaction) (tid tid2 k : ℤ)
    (vendor category : Option String) (items : List Item)
    (date : Option String) (amount : Option ℚ) (txt : String)
    (h1 : createTransactionText vendor category items date amount = Except.ok txt)
    (h2 : e.embed txt = Except.error ())
    (h3 : db tid2 = none) :
    addTransactionToVectorDb e tid vendor category items date amount = (false, e) ∧
      retrieveContextForTransaction setOrder db e tid2 k = none := by
  constructor
  · simp only [addTransactionToVectorDb, h1, h2]
  · simp only [retrieveContextForTransaction, h3]

/-- C9 witness: a concrete failing gateway and an empty relational store. -/
theorem c9_witness :
    createTransactionText (some "A") none [] none (some 5) =
        Except.ok "Transaction at A on unknown date for general spending $5.00" ∧
      engineFail.embed "Transaction at A on unknown date for general spending $5.00" =
        Except.error () ∧
      (fun _ : ℤ => (none : Option DbTransaction)) 7 = none ∧
      (addTransactionToVectorDb engineFail 1 (some "A") none [] none (some 5) =
          (false, engineFail) ∧
        retrieveContextForTransaction pyDedup (fun _ => none) engineFail 7 3 = none) :=
  ⟨rfl, rfl, rfl,
    c9_external_failures pyDedup engineFail (fun _ => none) 1 7 3
      (some "A") none [] none (some 5)
      "Transaction at A on unknown date for general spending $5.00" rfl rfl rfl⟩

/-- C10: with the global engine uninitialised (`none`), the module-level
search, context and stats functions return empty results without consulting
any initialisation outcome (their definitions take none), while the
module-level add first consults the initialisation outcome and returns
`false` when that initialisation fails. -/
theorem c10_uninitialized_module {E : Type}
    (setOrder : List String → List String) (db : ℤ → Option DbTransaction)
    (q : String) (k tid tid2 : ℤ) (vendor category : Option String)
    (items : List Item) (date : Option String) (amount : Option ℚ) :
    moduleGetSimilarTransactions (none : Option (RAGEngine E)) q k = [] ∧
      moduleRetrieveContextForTransaction (none : Option (RAGEngine E))
        setOrder db tid k = none ∧
      moduleGetCollectionStats (none : Option (RAGEngine E)) = none ∧
      moduleAddTransactionToVectorDb (none : Option (RAGEngine E)) none tid2
        vendor category items date amount = (false, none) :=
  ⟨rfl, rfl, rfl, rfl⟩

/-- C4 counterexample: a single neighbor with empty vendor, empty category
and amount 0.  The code's truthiness filters drop the amount, so it returns
the fallback sentence, while the claim's reference definition emits the
average-amount clause for any numeric amount (0 included).  At this input
the non-empty vendor and category lists are empty, so the `if vendors:` /
`if categories:` guards skip every set operation and the code's output does
not depend on the set-iteration order; it is instantiated here with
first-occurrence order. -/
theorem c4_counterexample_zero_amount :
    generateContextSummary pyDedup [⟨5, "", "", "", 0, 0, "", 0⟩] ≠
      specSummarize [⟨5, "", "", "", 0, 0, "", 0⟩] := by
  decide

/-- C4 witness: first-occurrence deduplication is one admissible set
iteration order (its membership matches its argument); the theorem is
applied to a neighbor list with a genuine vendor-count tie. -/
theorem c4_witness :
    (∀ (l : List String) (a : String), a ∈ pyDedup l ↔ a ∈ l) ∧
      (∃ mv mc : String,
        ((c4SampleNeighbors.map (fun t => t.vendor)).filter (fun s => s ≠ "") ≠ [] →
          mv ∈ (c4SampleNeighbors.map (fun t => t.vendor)).filter (fun s => s ≠ "") ∧
          ∀ w ∈ (c4SampleNeighbors.map (fun t => t.vendor)).filter (fun s => s ≠ ""),
            ((c4SampleNeighbors.map (fun t => t.vendor)).filter (fun s => s ≠ "")).count w ≤
              ((c4SampleNeighbors.map (fun t => t.vendor)).filter (fun s => s ≠ "")).count mv) ∧
        ((c4SampleNeighbors.map (fun t => t.category)).filter (fun s => s ≠ "") ≠ [] →
          mc ∈ (c4SampleNeighbors.map (fun t => t.category)).filter (fun s => s ≠ "") ∧
          ∀ w ∈ (c4SampleNeighbors.map (fun t => t.category)).filter (fun s => s ≠ ""),
            ((c4SampleNeighbors.map (fun t => t.category)).filter (fun s => s ≠ "")).count w ≤
              ((c4SampleNeighbors.map (fun t => t.category)).filter (fun s => s ≠ "")).count mc) ∧
        generateContextSummary pyDedup c4SampleNeighbors =
          specSummarizeAmended mv mc c4SampleNeighbors) :=
  ⟨fun l _a => mem_pyDedup l,
    generateContextSummary_eq_specAmended pyDedup (fun l _a => mem_pyDedup l)
      c4SampleNeighbors⟩

end ConcreteEvaluation
